import Mathlib

/-!
Verification development for the DCS-BIOS serial/UDP bridge
(`dcsbios_daemon.py`, class `DCSBIOSManager` and record `DeviceConfig`).

The Python code is shallowly embedded: bytes become `List Nat`, the
manager's mutable attributes become fields of a `ManagerState` record and
each method becomes a pure state transformer.  Side effects that leave the
process (UDP datagrams, serial writes) are returned as explicit event
lists.  The wall clock (`time.strftime`, `time.time`) is threaded through
as an explicit parameter or state field, and the outcomes of operations on
the outside world (bind success, serial-write success, received datagrams)
are explicit inputs of the corresponding step functions.
-/

namespace DCSBIOS

/-- Device status strings used by the daemon: `"Stopped"`, `"Connecting"`,
`"Connected"`, `"Error"`.  (The spec calls the `"Stopped"` value
"Disconnected".) -/
inductive DeviceStatus where
  | Stopped
  | Connecting
  | Connected
  | Error
deriving DecidableEq, Repr

/-- Embedding of the Python class `DeviceConfig`: four configuration
fields plus the two runtime fields (`status`, `last_activity`) that
`__init__` also sets.  `last_activity` is an abstract time stamp
(`time.time()` value), `none` for Python's `None`. -/
structure DeviceConfig where
  name : String
  port : String
  baudrate : Nat
  enabled : Bool
  status : DeviceStatus
  last_activity : Option Nat
deriving DecidableEq, Repr

/-- `DeviceConfig.__init__`: stores the four arguments and initialises
`status = "Stopped"`, `last_activity = None`. -/
def DeviceConfig.init (name : String) (port : String)
    (baudrate : Nat := 250000) (enabled : Bool := true) : DeviceConfig :=
  { name := name, port := port, baudrate := baudrate, enabled := enabled,
    status := DeviceStatus.Stopped, last_activity := none }

/-- The dictionary produced by `DeviceConfig.to_dict` / consumed by
`DeviceConfig.from_dict`: the four configuration keys, each possibly
absent (`none` models a missing key, matching `dict.get(key, default)`). -/
structure DeviceDict where
  name : Option String
  port : Option String
  baudrate : Option Nat
  enabled : Option Bool
deriving DecidableEq, Repr

/-- `DeviceConfig.to_dict`: emits exactly the keys `name`, `port`,
`baudrate`, `enabled`. -/
def DeviceConfig.to_dict (d : DeviceConfig) : DeviceDict :=
  { name := some d.name, port := some d.port,
    baudrate := some d.baudrate, enabled := some d.enabled }

/-- `DeviceConfig.from_dict`: `data.get("name", "Unknown")`,
`data.get("port", "")`, `data.get("baudrate", 250000)`,
`data.get("enabled", True)` fed to the constructor. -/
def DeviceConfig.from_dict (data : DeviceDict) : DeviceConfig :=
  DeviceConfig.init (data.name.getD "Unknown") (data.port.getD "")
    (data.baudrate.getD 250000) (data.enabled.getD true)

/-- One entry of `self.active_serial_ports`: the dict
`{"name": device.name, "port": ser, "device": device}`.  The serial
object is abstracted to its `is_open` flag; the shared `device` reference
becomes an index into the manager's device list. -/
structure PortEntry where
  name : String
  is_open : Bool
  deviceIdx : Nat
deriving DecidableEq, Repr

/-- The UDP socket object: created by `socket.socket(...)`; `bound`
records whether `bind`/`IP_ADD_MEMBERSHIP` succeeded, `closed` whether
`close()` has been called. -/
structure SocketState where
  bound : Bool
  closed : Bool
deriving DecidableEq, Repr

/-- The threads the manager appends to `self.threads`: the single
`udp_to_serial` importer thread and one `serial_to_udp` exporter thread
per enabled device (identified by the device's index in `self.devices`). -/
inductive TaskId where
  | importer
  | exporter (idx : Nat)
deriving DecidableEq, Repr

/-- Mutable attributes of `DCSBIOSManager` relevant to the bridge engine.
`now` is the current `time.strftime("%H:%M:%S")` string used when a log
entry is produced. -/
structure ManagerState where
  devices : List DeviceConfig
  running : Bool
  threads : List TaskId
  active_serial_ports : List PortEntry
  udp_sock : Option SocketState
  status_messages : List String
  dcs_pc_ip : String
  udp_ip : String
  udp_port : Nat
  udp_dest_port : Nat
  multicast_group : String
  now : String
deriving DecidableEq, Repr

/-- `self.max_messages = 10`. -/
def max_messages : Nat := 10

/-- A log entry: `f"[{timestamp}] {msg}"`. -/
def fmtEntry (ts msg : String) : String := "[" ++ ts ++ "] " ++ msg

/-- List part of `add_message`: `self.status_messages.append(entry)`
followed by `self.status_messages.pop(0)` when the length exceeds
`max_messages`. -/
def pushBounded (log : List String) (entry : String) : List String :=
  if (log ++ [entry]).length > max_messages then (log ++ [entry]).tail
  else log ++ [entry]

/-- `DCSBIOSManager.add_message`: timestamps the message and appends it to
the bounded log. -/
def ManagerState.add_message (s : ManagerState) (msg : String) : ManagerState :=
  { s with status_messages := pushBounded s.status_messages (fmtEntry s.now msg) }

/-- `DCSBIOSManager.is_dcsbios_export_packet`:
`len(data) >= 4 and data[0] == 0x55 and data[1] == 0x55 and data[2] == 0x55
and data[3] == 0x55`. -/
def is_dcsbios_export_packet (data : List Nat) : Bool :=
  decide (4 ≤ data.length) && (data.getD 0 0 == 0x55) && (data.getD 1 0 == 0x55)
    && (data.getD 2 0 == 0x55) && (data.getD 3 0 == 0x55)

/-- `DCSBIOSManager.__init__` attribute values before `load_config()` runs
(the configuration defaults; `udp_dest_port` in particular is fixed to
7778 and never loaded from config). -/
def initManager : ManagerState :=
  { devices := [], running := false, threads := [],
    active_serial_ports := [], udp_sock := none, status_messages := [],
    dcs_pc_ip := "192.168.1.2", udp_ip := "0.0.0.0",
    udp_port := 5010, udp_dest_port := 7778,
    multicast_group := "239.255.50.10", now := "00:00:00" }

/-- Helper for the Python statement `device.last_activity = time.time()`
on the device at index `i` of the manager's list. -/
def updateLastActivity (devs : List DeviceConfig) (i : Nat) (now : Nat) :
    List DeviceConfig :=
  match devs[i]? with
  | none => devs
  | some d => devs.set i { d with last_activity := some now }

/-- First pass of `data.replace(b'\r\n', b'\n')`: Python's `bytes.replace`
scans left to right, replacing each non-overlapping occurrence of the
two-byte pattern CR LF (13, 10) by LF (10) and otherwise advancing one
byte. -/
def replaceCRLF : List Nat → List Nat
  | [] => []
  | [b] => [b]
  | b :: c :: rest =>
    if b = 13 ∧ c = 10 then 10 :: replaceCRLF rest
    else b :: replaceCRLF (c :: rest)

/-- Second pass `.replace(b'\r', b'\n')`: every remaining CR byte becomes
LF. -/
def replaceCR (l : List Nat) : List Nat :=
  l.map (fun b => if b = 13 then 10 else b)

/-- `clean_data = data.replace(b'\r\n', b'\n').replace(b'\r', b'\n')`. -/
def cleanData (data : List Nat) : List Nat := replaceCR (replaceCRLF data)

/-- The spec's description of the same transform, written from its words:
"replace CR-LF and lone CR byte sequences with LF" in one left-to-right
scan. -/
def specNormalize : List Nat → List Nat
  | [] => []
  | [b] => [if b = 13 then 10 else b]
  | b :: c :: rest =>
    if b = 13 ∧ c = 10 then 10 :: specNormalize rest
    else (if b = 13 then 10 else b) :: specNormalize (c :: rest)

/-- An outbound UDP datagram produced by `self.udp_sock.sendto(payload,
(host, port))`. -/
structure SendEvent where
  payload : List Nat
  host : String
  port : Nat
deriving DecidableEq, Repr

/-- Entry guard of `DCSBIOSManager.serial_to_udp`: `if not device.enabled:
return` (before any mutation), otherwise `device.status = "Connecting"`
before entering the loop.  The argument is the device's index in
`self.devices`. -/
def ManagerState.serial_to_udp_entry (s : ManagerState) (idx : Nat) :
    ManagerState :=
  match s.devices[idx]? with
  | none => s
  | some d =>
    if !d.enabled then s
    else { s with devices := s.devices.set idx { d with status := DeviceStatus.Connecting } }

/-- One connected-with-data iteration of the `serial_to_udp` loop body:
`data = ser.read(ser.in_waiting)`; `if data:` normalise line endings, send
one datagram to `(self.dcs_pc_ip, self.udp_dest_port)` and set the
device's `last_activity`.  Returns the new state and the datagrams sent. -/
def ManagerState.serial_to_udp_read (s : ManagerState) (idx : Nat)
    (data : List Nat) (now : Nat) : ManagerState × List SendEvent :=
  if data = [] then (s, [])
  else
    ({ s with devices := updateLastActivity s.devices idx now },
     [{ payload := cleanData data, host := s.dcs_pc_ip, port := s.udp_dest_port }])

/-- The fan-out loop of `udp_to_serial`: `for entry in
self.active_serial_ports: if ser and ser.is_open: try: ser.write(data);
device.last_activity = time.time() except: pass`.  `writeOk i` tells
whether the `write` on the `i`-th entry raises; a failed write is caught
and the loop continues.  Returns the new device list and, for each
attempted write, the pair (device index, bytes written). -/
def fanoutLoop (data : List Nat) (now : Nat) (writeOk : Nat → Bool) :
    List DeviceConfig → Nat → List PortEntry →
    List DeviceConfig × List (Nat × List Nat)
  | devs, _, [] => (devs, [])
  | devs, i, entry :: rest =>
    if entry.is_open then
      let devs' := if writeOk i then updateLastActivity devs entry.deviceIdx now else devs
      let r := fanoutLoop data now writeOk devs' (i + 1) rest
      (r.1, (entry.deviceIdx, data) :: r.2)
    else
      fanoutLoop data now writeOk devs (i + 1) rest

/-- One iteration of the `udp_to_serial` receive loop: `recv = none`
models `recvfrom` raising (the except branch sleeps 1 s and continues);
otherwise the datagram is dropped unless its source address equals
`self.dcs_pc_ip` and it passes `is_dcsbios_export_packet`, and an accepted
datagram is fanned out to every open entry of
`self.active_serial_ports`. -/
def ManagerState.udp_to_serial_step (s : ManagerState)
    (recv : Option (String × List Nat)) (writeOk : Nat → Bool) (now : Nat) :
    ManagerState × List (Nat × List Nat) :=
  match recv with
  | none => (s, [])
  | some (addr, data) =>
    if addr ≠ s.dcs_pc_ip then (s, [])
    else if !is_dcsbios_export_packet data then (s, [])
    else
      ({ s with devices :=
          (fanoutLoop data now writeOk s.devices 0 s.active_serial_ports).1 },
       (fanoutLoop data now writeOk s.devices 0 s.active_serial_ports).2)

/-- `DCSBIOSManager.setup_udp`: creates the socket, sets `SO_REUSEADDR`,
binds and joins the multicast group inside a `try`.  `bindOk` tells
whether bind/join succeeds; on failure the exception text `err` is logged
as `"UDP setup error: ..."` and the method returns normally. -/
def ManagerState.setup_udp (s : ManagerState) (bindOk : Bool) (err : String) :
    ManagerState :=
  if bindOk then
    { s with udp_sock := some { bound := true, closed := false } }.add_message
      ("UDP socket listening on port " ++ toString s.udp_port)
  else
    { s with udp_sock := some { bound := false, closed := false } }.add_message
      ("UDP setup error: " ++ err)

/-- The exporter threads spawned by `start`'s loop `for device in
self.devices: if device.enabled: ...`, with `i` the index of the first
device of the list. -/
def exporterTasksFrom : Nat → List DeviceConfig → List TaskId
  | _, [] => []
  | i, d :: rest =>
    if d.enabled then TaskId.exporter i :: exporterTasksFrom (i + 1) rest
    else exporterTasksFrom (i + 1) rest

/-- `DCSBIOSManager.start`: if already running, log `"Already running!"`
and return; otherwise set `running = True`, run `setup_udp`, append the
importer thread and one exporter thread per enabled device to
`self.threads`, and log the start message. -/
def ManagerState.start (s : ManagerState) (bindOk : Bool) (err : String) :
    ManagerState :=
  if s.running then s.add_message "Already running!"
  else
    let s1 := { s with running := true }
    let s2 := s1.setup_udp bindOk err
    let s3 := { s2 with
      threads := s2.threads ++ TaskId.importer :: exporterTasksFrom 0 s2.devices }
    s3.add_message "DCS-BIOS manager daemon started"

/-- `DCSBIOSManager.stop`: if not running, return; otherwise clear the
running flag, log, sleep 1 s, close the socket, force every device's
status to `"Stopped"`, clear `self.threads` and log the stop message. -/
def ManagerState.stop (s : ManagerState) : ManagerState :=
  if !s.running then s
  else
    let s1 := ({ s with running := false }).add_message
      "Stopping DCS-BIOS manager daemon..."
    let s2 := { s1 with
      udp_sock := s1.udp_sock.map (fun sk : SocketState => { sk with closed := true }),
      devices := s1.devices.map (fun d : DeviceConfig => { d with status := DeviceStatus.Stopped }),
      threads := [] }
    s2.add_message "DCS-BIOS manager daemon stopped"

/-! ### Concrete states used to instantiate the theorems -/

/-- An enabled device as built by the default device table. -/
def devA : DeviceConfig := DeviceConfig.init "AFCS" "/dev/ttyACM0"

/-- A disabled device as built by the default device table. -/
def devOff : DeviceConfig := DeviceConfig.init "CMS" "/dev/ttyACM8" 250000 false

/-- A device carrying live runtime state. -/
def devConn : DeviceConfig :=
  { DeviceConfig.init "AFCS" "/dev/ttyACM0" with
    status := DeviceStatus.Connected, last_activity := some 99 }

/-- Manager with one enabled device whose transport is open for fan-out. -/
def sOne : ManagerState :=
  { initManager with
    devices := [devA],
    active_serial_ports := [{ name := "AFCS", is_open := true, deviceIdx := 0 }] }

/-- Manager whose log already holds ten entries. -/
def sTen : ManagerState :=
  { initManager with status_messages :=
      ["m1", "m2", "m3", "m4", "m5", "m6", "m7", "m8", "m9", "m10"] }

/-- Manager in the Running state. -/
def sRun : ManagerState :=
  { initManager with
    running := true, devices := [devA],
    threads := [TaskId.importer, TaskId.exporter 0] }

/-- Stopped manager with one enabled device, about to face a bind
failure. -/
def sBindFail : ManagerState := { initManager with devices := [devA] }

/-- Stopped manager with one disabled device. -/
def sOff : ManagerState := { initManager with devices := [devOff] }

/-- Running manager with two devices, both open in the fan-out set. -/
def sTwo : ManagerState :=
  { initManager with
    running := true,
    devices := [DeviceConfig.init "A" "/dev/ttyACM0", DeviceConfig.init "B" "/dev/ttyACM1"],
    active_serial_ports :=
      [{ name := "A", is_open := true, deviceIdx := 0 },
       { name := "B", is_open := true, deviceIdx := 1 }] }

/-! ### Helper lemmas -/

/-- The bounded log always ends with the entry just pushed. -/
theorem getLast?_pushBounded (log : List String) (e : String) :
    (pushBounded log e).getLast? = some e := by
  unfold pushBounded
  split
  · next h =>
    cases log with
    | nil => simp [max_messages] at h
    | cons a as =>
      rw [List.tail_append_of_ne_nil (by simp)]
      exact List.getLast?_concat _
  · exact List.getLast?_concat _

/-- `updateLastActivity` only touches `last_activity`: lookup at any index
keeps the status field. -/
theorem updateLastActivity_status (devs : List DeviceConfig) (i : Nat)
    (now : Nat) (j : Nat) :
    ((updateLastActivity devs i now)[j]?).map (fun d => d.status) =
      (devs[j]?).map (fun d => d.status) := by
  unfold updateLastActivity
  cases hget : devs[i]? with
  | none => rfl
  | some d =>
    obtain ⟨hlt, -⟩ := List.getElem?_eq_some_iff.mp hget
    rw [List.getElem?_set]
    split
    · next hij =>
      subst hij
      simp [hget, hlt]
    · rfl

/-- `updateLastActivity` at an in-range index sets that device's
`last_activity` to the given time. -/
theorem updateLastActivity_getElem (devs : List DeviceConfig) (i : Nat)
    (now : Nat) :
    ((updateLastActivity devs i now)[i]?).map (fun d => d.last_activity) =
      (devs[i]?).map (fun _ => some now) := by
  unfold updateLastActivity
  cases hget : devs[i]? with
  | none => simp [hget]
  | some d =>
    obtain ⟨hlt, -⟩ := List.getElem?_eq_some_iff.mp hget
    rw [List.getElem?_set]
    simp [hlt, hget]

/-- `updateLastActivity` leaves every other index untouched. -/
theorem updateLastActivity_getElem_ne (devs : List DeviceConfig) (i : Nat)
    (now : Nat) (j : Nat) (hij : i ≠ j) :
    (updateLastActivity devs i now)[j]? = devs[j]? := by
  unfold updateLastActivity
  cases hget : devs[i]? with
  | none => rfl
  | some d => rw [List.getElem?_set_ne hij]

/-- The two `bytes.replace` passes of the exporter equal the spec's single
left-to-right CR-LF / CR → LF normalization. -/
theorem cleanData_eq_specNormalize : ∀ l : List Nat, cleanData l = specNormalize l
  | [] => rfl
  | [b] => by simp [cleanData, replaceCRLF, replaceCR, specNormalize]
  | b :: c :: rest => by
    have ih1 := cleanData_eq_specNormalize rest
    have ih2 := cleanData_eq_specNormalize (c :: rest)
    simp only [cleanData] at ih1 ih2 ⊢
    rw [replaceCRLF, specNormalize]
    by_cases h : b = 13 ∧ c = 10
    · rw [if_pos h, if_pos h]
      simp only [replaceCR, List.map_cons] at ih1 ⊢
      simp [ih1]
    · rw [if_neg h, if_neg h]
      simp only [replaceCR, List.map_cons] at ih2 ⊢
      simp [ih2]

/-- The fan-out loop attempts a write for exactly the open entries, in
order, each carrying the raw datagram bytes — independently of which
writes fail. -/
theorem fanoutLoop_events (data : List Nat) (now : Nat) (writeOk : Nat → Bool) :
    ∀ (entries : List PortEntry) (devs : List DeviceConfig) (i : Nat),
    (fanoutLoop data now writeOk devs i entries).2 =
      (entries.filter (fun e => e.is_open)).map (fun e => (e.deviceIdx, data)) := by
  intro entries
  induction entries with
  | nil => intro devs i; rfl
  | cons entry rest ih =>
    intro devs i
    rw [fanoutLoop]
    by_cases hop : entry.is_open
    · simp only [hop, if_pos, List.filter_cons, List.map_cons]
      simp [ih]
    · simp only [Bool.not_eq_true] at hop
      simp [hop, ih]

/-- The fan-out loop never changes any device's status (it only updates
`last_activity`). -/
theorem fanoutLoop_status (data : List Nat) (now : Nat) (writeOk : Nat → Bool) :
    ∀ (entries : List PortEntry) (devs : List DeviceConfig) (i j : Nat),
    (((fanoutLoop data now writeOk devs i entries).1)[j]?).map (fun d => d.status) =
      (devs[j]?).map (fun d => d.status) := by
  intro entries
  induction entries with
  | nil => intro devs i j; rfl
  | cons entry rest ih =>
    intro devs i j
    rw [fanoutLoop]
    by_cases hop : entry.is_open
    · simp only [hop, if_pos]
      by_cases hok : writeOk i
      · simp only [hok, if_pos]
        rw [ih]
        exact updateLastActivity_status devs entry.deviceIdx now j
      · simp only [Bool.not_eq_true] at hok
        simp only [hok]
        rw [if_neg (by simp)]
        exact ih devs (i + 1) j
    · simp only [Bool.not_eq_true] at hop
      simp only [hop]
      rw [if_neg (by simp)]
      exact ih devs (i + 1) j

/-- Every exporter task spawned by `start`'s loop corresponds to an
enabled device of the list. -/
theorem mem_exporterTasksFrom {j : Nat} :
    ∀ {i : Nat} {devs : List DeviceConfig},
    TaskId.exporter j ∈ exporterTasksFrom i devs →
    ∃ k d, devs[k]? = some d ∧ d.enabled = true ∧ j = i + k := by
  intro i devs
  induction devs generalizing i with
  | nil => intro h; simp [exporterTasksFrom] at h
  | cons d rest ih =>
    intro h
    rw [exporterTasksFrom] at h
    by_cases hen : d.enabled
    · rw [if_pos hen] at h
      rcases List.mem_cons.mp h with h0 | h1
      · injection h0 with h'
        exact ⟨0, d, by simp, hen, by omega⟩
      · obtain ⟨k, d', hk, hd', hj⟩ := ih h1
        exact ⟨k + 1, d', by simpa using hk, hd', by omega⟩
    · simp only [Bool.not_eq_true] at hen
      rw [if_neg (by simp [hen])] at h
      obtain ⟨k, d', hk, hd', hj⟩ := ih h
      exact ⟨k + 1, d', by simpa using hk, hd', by omega⟩

theorem pushBounded_length_le (log : List String) (e : String)
    (h : log.length ≤ 10) : (pushBounded log e).length ≤ 10 := by
  unfold pushBounded max_messages
  split
  · next hgt =>
    cases log with
    | nil => simp at hgt
    | cons a as =>
      rw [List.tail_append_of_ne_nil (by simp)]
      simp at h ⊢
      omega
  · next hle => simp at hle ⊢; omega

theorem pushBounded_of_lt (log : List String) (e : String)
    (h : log.length < 10) : pushBounded log e = log ++ [e] := by
  unfold pushBounded max_messages
  rw [if_neg]
  simp
  omega

theorem pushBounded_of_len_eq (log : List String) (e : String)
    (h : log.length = 10) : pushBounded log e = log.tail ++ [e] := by
  have hne : log ≠ [] := by intro hnil; rw [hnil] at h; simp at h
  unfold pushBounded max_messages
  rw [if_pos (by simp [h]), List.tail_append_of_ne_nil hne]

/-- `setup_udp` only touches the socket and the log. -/
theorem setup_udp_devices (s : ManagerState) (bindOk : Bool) (err : String) :
    (s.setup_udp bindOk err).devices = s.devices := by
  unfold ManagerState.setup_udp ManagerState.add_message
  split <;> rfl

/-- `setup_udp` does not touch the thread list. -/
theorem setup_udp_threads (s : ManagerState) (bindOk : Bool) (err : String) :
    (s.setup_udp bindOk err).threads = s.threads := by
  unfold ManagerState.setup_udp ManagerState.add_message
  split <;> rfl

/-- `start` called while running only appends the "Already running!" log
entry. -/
theorem start_running_eq (s : ManagerState) (bindOk : Bool) (err : String)
    (h : s.running = true) :
    s.start bindOk err =
      { s with status_messages :=
          pushBounded s.status_messages (fmtEntry s.now "Already running!") } := by
  rw [ManagerState.start, if_pos h]
  rfl

/-- `start` from the Stopped state appends the importer thread and one
exporter thread per enabled device. -/
theorem start_not_running_threads (s : ManagerState) (bindOk : Bool)
    (err : String) (h : s.running = false) :
    (s.start bindOk err).threads =
      s.threads ++ TaskId.importer :: exporterTasksFrom 0 s.devices := by
  rw [ManagerState.start, if_neg (by simp [h])]
  simp only [ManagerState.add_message]
  rw [setup_udp_threads, setup_udp_devices]

/-- `start` never modifies the device list. -/
theorem start_devices (s : ManagerState) (bindOk : Bool) (err : String) :
    (s.start bindOk err).devices = s.devices := by
  rw [ManagerState.start]
  split
  · rfl
  · simp only [ManagerState.add_message]
    exact setup_udp_devices _ bindOk err

/-! ### Claim theorems -/

/-- C1: a received datagram's bytes are written (attempted) to the open
device transports iff the sender address equals the configured simulator
host and the payload passes `is_dcsbios_export_packet`; a rejected
datagram leaves the state (devices, log) untouched; and
`is_dcsbios_export_packet data` is true iff `data` has length at least 4
and starts with the four marker bytes 0x55. -/
theorem claim_C1_inbound_filter (s : ManagerState) (addr : String)
    (data : List Nat) (writeOk : Nat → Bool) (now : Nat) :
    (is_dcsbios_export_packet data = true ↔
      4 ≤ data.length ∧ data.take 4 = [0x55, 0x55, 0x55, 0x55]) ∧
    (s.udp_to_serial_step (some (addr, data)) writeOk now).2 =
      (if addr = s.dcs_pc_ip ∧ is_dcsbios_export_packet data = true
       then (s.active_serial_ports.filter (fun e => e.is_open)).map
              (fun e => (e.deviceIdx, data))
       else []) ∧
    (¬ (addr = s.dcs_pc_ip ∧ is_dcsbios_export_packet data = true) →
      (s.udp_to_serial_step (some (addr, data)) writeOk now).1 = s) := by
  refine ⟨?_, ?_, ?_⟩
  · rcases data with _ | ⟨a, _ | ⟨b, _ | ⟨c, _ | ⟨d, rest⟩⟩⟩⟩
    all_goals simp [is_dcsbios_export_packet, List.getD]
    all_goals omega
  · rw [ManagerState.udp_to_serial_step]
    by_cases ha : addr = s.dcs_pc_ip
    · rw [if_neg (by simp [ha])]
      by_cases hp : is_dcsbios_export_packet data
      · rw [if_neg (by simp [hp])]
        rw [if_pos ⟨ha, hp⟩]
        exact fanoutLoop_events data now writeOk s.active_serial_ports s.devices 0
      · simp only [Bool.not_eq_true] at hp
        rw [if_pos (by simp [hp]), if_neg (by simp [hp])]
    · rw [if_pos (by simp [ha]), if_neg (by intro hcon; exact ha hcon.1)]
  · intro hrej
    rw [ManagerState.udp_to_serial_step]
    by_cases ha : addr = s.dcs_pc_ip
    · have hp : is_dcsbios_export_packet data = false := by
        rcases Bool.eq_false_or_eq_true (is_dcsbios_export_packet data) with h | h
        · exact absurd ⟨ha, h⟩ hrej
        · exact h
      rw [if_neg (by simp [ha]), if_pos (by simp [hp])]
    · rw [if_pos (by simp [ha])]

/-- C3: provided the log respects its bound of 10 entries, `add_message`
appends the new timestamped entry at the end; when the log is strictly
below the bound nothing is evicted, and when it already holds 10 entries
exactly the oldest (head) entry is removed, keeping the bound and FIFO
order. -/
theorem claim_C3_log_bound (s : ManagerState) (m : String)
    (h : s.status_messages.length ≤ 10) :
    ((s.add_message m).status_messages.length ≤ 10) ∧
    (s.status_messages.length < 10 →
      (s.add_message m).status_messages =
        s.status_messages ++ [fmtEntry s.now m]) ∧
    (s.status_messages.length = 10 →
      (s.add_message m).status_messages =
        s.status_messages.tail ++ [fmtEntry s.now m]) := by
  refine ⟨?_, fun hlt => ?_, fun heq => ?_⟩
  · exact pushBounded_length_le _ _ h
  · exact pushBounded_of_lt _ _ hlt
  · exact pushBounded_of_len_eq _ _ heq

/-- C9: `from_dict ∘ to_dict` preserves the four configuration fields,
and `from_dict` substitutes the documented default for each missing
key. -/
theorem claim_C9_dict_roundtrip (d : DeviceConfig) (dd : DeviceDict) :
    ((DeviceConfig.from_dict (DeviceConfig.to_dict d)).name = d.name ∧
     (DeviceConfig.from_dict (DeviceConfig.to_dict d)).port = d.port ∧
     (DeviceConfig.from_dict (DeviceConfig.to_dict d)).baudrate = d.baudrate ∧
     (DeviceConfig.from_dict (DeviceConfig.to_dict d)).enabled = d.enabled) ∧
    ((dd.name = none → (DeviceConfig.from_dict dd).name = "Unknown") ∧
     (dd.port = none → (DeviceConfig.from_dict dd).port = "") ∧
     (dd.baudrate = none → (DeviceConfig.from_dict dd).baudrate = 250000) ∧
     (dd.enabled = none → (DeviceConfig.from_dict dd).enabled = true)) := by
  refine ⟨⟨rfl, rfl, rfl, rfl⟩, fun h => ?_, fun h => ?_, fun h => ?_, fun h => ?_⟩ <;>
    simp [DeviceConfig.from_dict, DeviceConfig.init, h]

/-- C10: a freshly constructed `DeviceConfig` has `status = "Stopped"`
and `last_activity = None` for all constructor arguments; `to_dict`
depends only on the four configuration fields (runtime state is never
persisted); and `from_dict` always restores the disconnected runtime
state (runtime state is never restored). -/
theorem claim_C10_runtime_fields (name port : String) (baud : Nat) (en : Bool)
    (d1 d2 : DeviceConfig) (dd : DeviceDict)
    (hn : d1.name = d2.name) (hp : d1.port = d2.port)
    (hb : d1.baudrate = d2.baudrate) (he : d1.enabled = d2.enabled) :
    (DeviceConfig.init name port baud en).status = DeviceStatus.Stopped ∧
    (DeviceConfig.init name port baud en).last_activity = none ∧
    DeviceConfig.to_dict d1 = DeviceConfig.to_dict d2 ∧
    (DeviceConfig.from_dict dd).status = DeviceStatus.Stopped ∧
    (DeviceConfig.from_dict dd).last_activity = none := by
  refine ⟨rfl, rfl, ?_, rfl, rfl⟩
  simp [DeviceConfig.to_dict, hn, hp, hb, he]

/-- C2 counterexample: in the Stopped state with one enabled device, a
bind/join failure during `start()` does not make it a failed start — the
bridge still enters Running and both the importer and the exporter task
are spawned, contradicting "no Importer or Exporter task is spawned, and
the bridge does not enter the Running state". -/
theorem claim_C2_counterexample :
    (sBindFail.start false "OSError").running = true ∧
    (sBindFail.start false "OSError").threads =
      [TaskId.importer, TaskId.exporter 0] := by
  constructor
  · rfl
  · rfl

/-- C2 amended: a bind/join failure during `start()` (from Stopped) logs
"UDP setup error: ..." but does not prevent the start: the running flag is
set, the importer and one exporter task per enabled device are spawned,
the socket is left unbound, and the start message is still logged. -/
theorem claim_C2_bindfail_still_starts (s : ManagerState) (err : String)
    (h : s.running = false) :
    (s.start false err).running = true ∧
    (s.start false err).threads =
      s.threads ++ TaskId.importer :: exporterTasksFrom 0 s.devices ∧
    (s.start false err).udp_sock = some { bound := false, closed := false } ∧
    (s.start false err).status_messages =
      pushBounded
        (pushBounded s.status_messages
          (fmtEntry s.now ("UDP setup error: " ++ err)))
        (fmtEntry s.now "DCS-BIOS manager daemon started") := by
  rw [ManagerState.start, if_neg (by simp [h])]
  exact ⟨rfl, rfl, rfl, rfl⟩

/-- C2 witness: the amended behaviour at the concrete state. -/
theorem claim_C2_bindfail_witness :
    (sBindFail.start false "OSError").running = true ∧
    (sBindFail.start false "OSError").udp_sock =
      some { bound := false, closed := false } :=
  ⟨(claim_C2_bindfail_still_starts sBindFail "OSError" rfl).1,
   (claim_C2_bindfail_still_starts sBindFail "OSError" rfl).2.2.1⟩

/-- C4: a non-empty batch read from a connected device produces exactly
one datagram, addressed to the configured simulator host at port 7778,
whose payload is the batch after CR-LF then lone-CR normalization (which
coincides with the spec's one-pass description), and the device's
last-activity is updated while every other device is untouched. -/
theorem claim_C4_exporter_batch (s : ManagerState) (idx : Nat)
    (data : List Nat) (now : Nat)
    (hne : data ≠ []) (hport : s.udp_dest_port = 7778) :
    (s.serial_to_udp_read idx data now).2 =
      [{ payload := cleanData data, host := s.dcs_pc_ip, port := 7778 }] ∧
    cleanData data = specNormalize data ∧
    (((s.serial_to_udp_read idx data now).1.devices)[idx]?).map
        (fun d => d.last_activity) =
      (s.devices[idx]?).map (fun _ => some now) ∧
    (∀ j, idx ≠ j →
      ((s.serial_to_udp_read idx data now).1.devices)[j]? = s.devices[j]?) := by
  refine ⟨?_, cleanData_eq_specNormalize data, ?_, ?_⟩
  · rw [ManagerState.serial_to_udp_read, if_neg hne, hport]
  · rw [ManagerState.serial_to_udp_read, if_neg hne]
    exact updateLastActivity_getElem s.devices idx now
  · intro j hij
    rw [ManagerState.serial_to_udp_read, if_neg hne]
    exact updateLastActivity_getElem_ne s.devices idx now j hij

/-- C4 witness: a batch containing CR LF and a trailing CR is sent as one
normalized datagram to ("192.168.1.2", 7778). -/
theorem claim_C4_exporter_batch_witness :
    (sOne.serial_to_udp_read 0 [13, 10, 65, 13] 7).2 =
      [{ payload := [10, 65, 10], host := "192.168.1.2", port := 7778 }] := by
  rw [(claim_C4_exporter_batch sOne 0 [13, 10, 65, 13] 7 (by decide) rfl).1]
  rfl

/-- C5: `stop()` in the Running state clears the running flag, forces
every device (enabled or not) to status `"Stopped"`, empties the
task-handle list and ends the log with the stop event; in the Stopped
state `stop()` changes nothing at all. -/
theorem claim_C5_stop (s : ManagerState) :
    (s.running = true →
      s.stop.running = false ∧
      (∀ d ∈ s.stop.devices, d.status = DeviceStatus.Stopped) ∧
      s.stop.threads = [] ∧
      s.stop.status_messages.getLast? =
        some (fmtEntry s.now "DCS-BIOS manager daemon stopped")) ∧
    (s.running = false → s.stop = s) := by
  constructor
  · intro hrun
    rw [ManagerState.stop, if_neg (by simp [hrun])]
    refine ⟨rfl, ?_, rfl, ?_⟩
    · intro d hd
      simp only [ManagerState.add_message, List.mem_map] at hd
      obtain ⟨d0, -, rfl⟩ := hd
      rfl
    · exact getLast?_pushBounded _ _
  · intro hstop
    rw [ManagerState.stop, if_pos (by simp [hstop])]

/-- C5 witness: stopping the concrete running manager. -/
theorem claim_C5_stop_witness :
    sRun.stop.running = false ∧ sRun.stop.threads = [] :=
  ⟨((claim_C5_stop sRun).1 rfl).1, ((claim_C5_stop sRun).1 rfl).2.2.1⟩

/-- C6: a device disabled at the moment `start()` runs gets no new
exporter task, its descriptor (status included) is unchanged by
`start()`, and the exporter body invoked on it returns without any
mutation. -/
theorem claim_C6_disabled_device (s : ManagerState) (bindOk : Bool)
    (err : String) (idx : Nat) (d : DeviceConfig)
    (hget : s.devices[idx]? = some d) (hdis : d.enabled = false) :
    (TaskId.exporter idx ∈ (s.start bindOk err).threads →
      TaskId.exporter idx ∈ s.threads) ∧
    (s.start bindOk err).devices[idx]? = some d ∧
    s.serial_to_udp_entry idx = s := by
  refine ⟨?_, ?_, ?_⟩
  · intro hmem
    by_cases hrun : s.running
    · rw [start_running_eq s bindOk err hrun] at hmem
      exact hmem
    · rw [start_not_running_threads s bindOk err (by simpa using hrun)] at hmem
      rcases List.mem_append.mp hmem with hin | hnew
      · exact hin
      · exfalso
        rcases List.mem_cons.mp hnew with h0 | h1
        · exact absurd h0 (by simp)
        · obtain ⟨k, d', hk, hd', hik⟩ := mem_exporterTasksFrom h1
          have hkidx : k = idx := by omega
          subst hkidx
          rw [hget] at hk
          injection hk with hk'
          rw [hk'] at hdis
          rw [hd'] at hdis
          simp at hdis
  · rw [start_devices]
    exact hget
  · simp only [ManagerState.serial_to_udp_entry, hget]
    rw [if_pos (by simp [hdis])]

/-- C6 witness: the concrete disabled device. -/
theorem claim_C6_disabled_device_witness :
    sOff.serial_to_udp_entry 0 = sOff ∧
    (sOff.start true "").devices[0]? = some devOff :=
  ⟨(claim_C6_disabled_device sOff true "" 0 devOff rfl rfl).2.2,
   (claim_C6_disabled_device sOff true "" 0 devOff rfl rfl).2.1⟩

/-- C7 counterexample: calling `start()` while Running appends the entry
"Already running!" — with an exclamation mark — not the claimed message
"Already running". -/
theorem claim_C7_counterexample :
    (({ initManager with running := true } : ManagerState).start true
        "").status_messages = ["[00:00:00] Already running!"] ∧
    ("[00:00:00] Already running!" : String) ≠ "[00:00:00] Already running" := by
  constructor
  · rfl
  · decide

/-- C7 amended: `start()` while Running is a no-op apart from appending
the timestamped log entry "Already running!": the running flag, device
list, thread handles, fan-out set and socket are all left unchanged. -/
theorem claim_C7_start_idempotent (s : ManagerState) (bindOk : Bool)
    (err : String) (h : s.running = true) :
    s.start bindOk err =
      { s with status_messages :=
          pushBounded s.status_messages (fmtEntry s.now "Already running!") } :=
  start_running_eq s bindOk err h

/-- C7 witness: the amended no-op at the concrete running state. -/
theorem claim_C7_start_idempotent_witness :
    sRun.start false "ignored" =
      { sRun with status_messages :=
          pushBounded sRun.status_messages (fmtEntry sRun.now "Already running!") } :=
  claim_C7_start_idempotent sRun false "ignored" rfl

/-- C8: for an accepted datagram the importer attempts a write to every
open entry of the fan-out set within the same step, whichever writes fail:
the attempted-write list does not depend on which writes succeed, a failed
write changes no device's status, and the loop state (running flag,
fan-out set) is unchanged, so the importer proceeds to the next receive. -/
theorem claim_C8_fanout_isolation (s : ManagerState) (addr : String)
    (data : List Nat) (writeOk : Nat → Bool) (now : Nat)
    (haddr : addr = s.dcs_pc_ip)
    (hpkt : is_dcsbios_export_packet data = true) :
    (s.udp_to_serial_step (some (addr, data)) writeOk now).2 =
      (s.active_serial_ports.filter (fun e => e.is_open)).map
        (fun e => (e.deviceIdx, data)) ∧
    (∀ j : Nat,
      (((s.udp_to_serial_step (some (addr, data)) writeOk now).1.devices)[j]?).map
        (fun d : DeviceConfig => d.status) =
      (s.devices[j]?).map (fun d : DeviceConfig => d.status)) ∧
    (s.udp_to_serial_step (some (addr, data)) writeOk now).1.running = s.running ∧
    (s.udp_to_serial_step (some (addr, data)) writeOk now).1.active_serial_ports =
      s.active_serial_ports := by
  rw [ManagerState.udp_to_serial_step, if_neg (by simp [haddr]),
    if_neg (by simp [hpkt])]
  exact ⟨fanoutLoop_events data now writeOk s.active_serial_ports s.devices 0,
    fun j => fanoutLoop_status data now writeOk s.active_serial_ports s.devices 0 j,
    rfl, rfl⟩

/-- C8 witness: with the write on the first of two open devices failing,
both writes are still attempted. -/
theorem claim_C8_fanout_isolation_witness :
    (sTwo.udp_to_serial_step
        (some ("192.168.1.2", [0x55, 0x55, 0x55, 0x55, 7]))
        (fun i => i != 0) 3).2 =
      [(0, [0x55, 0x55, 0x55, 0x55, 7]), (1, [0x55, 0x55, 0x55, 0x55, 7])] := by
  rw [(claim_C8_fanout_isolation sTwo "192.168.1.2" [0x55, 0x55, 0x55, 0x55, 7]
    (fun i => i != 0) 3 rfl (by decide)).1]
  rfl

/-- C1 witness: a valid marker packet from the wrong source address leaves
the state untouched, while the marker predicate itself accepts the
payload. -/
theorem claim_C1_inbound_filter_witness :
    (sOne.udp_to_serial_step (some ("10.0.0.7", [0x55, 0x55, 0x55, 0x55, 1, 2]))
        (fun _ => true) 5).1 = sOne ∧
    is_dcsbios_export_packet [0x55, 0x55, 0x55, 0x55, 1, 2] = true := by
  refine ⟨(claim_C1_inbound_filter sOne "10.0.0.7" [0x55, 0x55, 0x55, 0x55, 1, 2]
    (fun _ => true) 5).2.2 ?_, ?_⟩
  · intro hcon
    exact absurd hcon.1 (by decide)
  · exact ((claim_C1_inbound_filter sOne "10.0.0.7" [0x55, 0x55, 0x55, 0x55, 1, 2]
      (fun _ => true) 5).1.mpr (by decide))

/-- C3 witness: pushing an eleventh entry onto a full log of ten entries
evicts exactly the oldest one. -/
theorem claim_C3_log_bound_witness :
    (sTen.add_message "x").status_messages.length ≤ 10 ∧
    (sTen.add_message "x").status_messages =
      sTen.status_messages.tail ++ [fmtEntry sTen.now "x"] :=
  ⟨(claim_C3_log_bound sTen "x" (by decide)).1,
   (claim_C3_log_bound sTen "x" (by decide)).2.2 (by decide)⟩

/-- C9 witness: round-trip on a concrete descriptor and defaulting on the
empty dictionary. -/
theorem claim_C9_dict_roundtrip_witness :
    (DeviceConfig.from_dict (DeviceConfig.to_dict
        (DeviceConfig.init "A" "/dev/ttyACM3" 9600 false))).name = "A" ∧
    (DeviceConfig.from_dict
        { name := none, port := none, baudrate := none, enabled := none }).baudrate
      = 250000 :=
  ⟨(claim_C9_dict_roundtrip (DeviceConfig.init "A" "/dev/ttyACM3" 9600 false)
      { name := none, port := none, baudrate := none, enabled := none }).1.1,
   (claim_C9_dict_roundtrip (DeviceConfig.init "A" "/dev/ttyACM3" 9600 false)
      { name := none, port := none, baudrate := none, enabled := none }).2.2.2.1 rfl⟩

/-- C10 witness: two descriptors differing only in runtime state serialize
identically. -/
theorem claim_C10_runtime_fields_witness :
    DeviceConfig.to_dict devConn = DeviceConfig.to_dict devA :=
  (claim_C10_runtime_fields "X" "Y" 1 false devConn devA
    { name := none, port := none, baudrate := none, enabled := none }
    rfl rfl rfl rfl).2.2.1

end DCSBIOS
